import Mathlib

/-!
Verification of the two runs-test implementations of the PruebasEstadisticas
repository (`rachas_encima_debajo.py` and `prueba_rachas_enc_deb.py`).

Modelling conventions:
* Sample values and all derived statistics are rationals (`ℚ`); Python float
  arithmetic on these formulas is exact rational arithmetic.
* The external numeric library calls (`scipy.stats.norm.ppf`, `norm.cdf`,
  `numpy.sqrt` / `math.sqrt`) are abstracted as a record `NormalFuncs` of
  rational-valued functions supplied to each test run.
* A raised Python exception and a returned `{'error': ...}` dictionary are
  both modelled as `Except.error` carrying the message.
* `prueba_rachas_enc_deb.RachasEncimaDebajo` mutates instance fields step by
  step; it is modelled by explicit state passing over a record `Estado`
  mirroring the instance fields.
-/

/-- A symbol of the runs tests: `mas` models the character '+', `menos`
models '-'. -/
inductive Simbolo where
  | mas : Simbolo
  | menos : Simbolo
deriving DecidableEq, Repr

/-- The external numeric library functions used by both implementations
(`scipy.stats.norm.ppf`, `scipy.stats.norm.cdf` and the square root),
kept abstract as rational-valued functions. -/
structure NormalFuncs where
  ppf : ℚ → ℚ
  cdf : ℚ → ℚ
  sqrt : ℚ → ℚ

/-- A concrete `NormalFuncs` instance with `sqrt 0 = 0`, `cdf 0 = 1/2` and
a positive `ppf`, used to instantiate hypotheses on concrete inputs. -/
def nfEjemplo : NormalFuncs :=
  { ppf := fun _ => 2, cdf := fun _ => 1/2, sqrt := fun q => q }

/-- A concrete `NormalFuncs` instance whose square root is the constant 5,
matching the true value `sqrt (2450/99) ≈ 4.975` from above. -/
def nfCinco : NormalFuncs :=
  { ppf := fun _ => 2, cdf := fun _ => 1/2, sqrt := fun _ => 5 }

/-- Number of adjacent positions `i ≥ 1` of a symbol sequence where
`s[i] ≠ s[i-1]`. -/
def cambiosAdyacentes (s : List Simbolo) : ℕ :=
  (s.zip s.tail).countP (fun p => decide (p.1 ≠ p.2))

namespace RachasEncimaDebajo

/-! Embedding of `rachas_encima_debajo.py` (class `RachasEncimaDebajo`).
The constructor derives the symbol sequence with the strict comparison
`dato > 0.5`; `ejecutar` counts runs by counting symbol transitions. -/

/-- Result dictionary of `ejecutar` (lines 101-116 of the source; the
constant `tipo_prueba` string and the 50-symbol display preview are
presentation-only and omitted). -/
structure Resultado where
  estadistico : ℚ
  valor_critico : ℚ
  p_valor : ℚ
  rechaza_h0 : Bool
  alpha : ℚ
  n_total : ℕ
  umbral : ℚ
  n1 : ℕ
  n2 : ℕ
  rachas_observadas : ℕ
  rachas_esperadas : ℚ
  desviacion_estandar : ℚ
deriving DecidableEq, Repr

/-- The fixed threshold `self.umbral = 0.5`. -/
def umbral : ℚ := 1/2

/-- `self.secuencia = ['+' if dato > self.umbral else '-' for dato in self.datos]`. -/
def secuencia (datos : List ℚ) : List Simbolo :=
  datos.map (fun dato => if umbral < dato then .mas else .menos)

/-- `self.n1 = self.secuencia.count('+')`. -/
def n1 (datos : List ℚ) : ℕ := (secuencia datos).count .mas

/-- `self.n2 = self.secuencia.count('-')`. -/
def n2 (datos : List ℚ) : ℕ := (secuencia datos).count .menos

/-- The loop of `_contar_rachas`: counts the positions where the symbol
differs from the previous one, the previous symbol carried as first
argument. -/
def cambios : Simbolo → List Simbolo → ℕ
  | _, [] => 0
  | prev, s :: rest => (if s ≠ prev then 1 else 0) + cambios s rest

/-- `_contar_rachas` (lines 40-53): `0` on the empty sequence, otherwise
one more than the number of symbol changes. -/
def contar_rachas (s : List Simbolo) : ℕ :=
  match s with
  | [] => 0
  | a :: rest => 1 + cambios a rest

/-- `mu_R = (2*n1*n2)/(n1+n2) + 1` (line 69). -/
def mu_R (datos : List ℚ) : ℚ :=
  2 * (n1 datos : ℚ) * (n2 datos : ℚ) / ((n1 datos : ℚ) + (n2 datos : ℚ)) + 1

/-- `numerador = 2*n1*n2*(2*n1*n2 - n1 - n2)` (line 72). -/
def numerador (datos : List ℚ) : ℚ :=
  2 * (n1 datos : ℚ) * (n2 datos : ℚ) *
    (2 * (n1 datos : ℚ) * (n2 datos : ℚ) - (n1 datos : ℚ) - (n2 datos : ℚ))

/-- `denominador = (n1+n2)**2 * (n1+n2-1)` (line 73). -/
def denominador (datos : List ℚ) : ℚ :=
  ((n1 datos : ℚ) + (n2 datos : ℚ)) ^ 2 * ((n1 datos : ℚ) + (n2 datos : ℚ) - 1)

/-- `sigma_R_squared = numerador / denominador` (line 80). -/
def sigma_R_squared (datos : List ℚ) : ℚ :=
  numerador datos / denominador datos

/-- `ejecutar` (lines 55-118), with the `__init__` emptiness check
(lines 26-27) folded in front.  The `raise ValueError` and each
`return {'error': ...}` are modelled as `Except.error`. -/
def ejecutar (nf : NormalFuncs) (datos : List ℚ) (alpha : ℚ) :
    Except String Resultado :=
  if datos.length = 0 then
    .error "El conjunto de datos no puede estar vacío."
  else if n1 datos + n2 datos = 0 ∨ n1 datos = 0 ∨ n2 datos = 0 then
    .error "No se pueden calcular las rachas. Verifique que haya datos tanto por encima como por debajo del umbral."
  else if denominador datos = 0 then
    .error "Error en el cálculo de la varianza. Denominador igual a cero."
  else if nf.sqrt (sigma_R_squared datos) = 0 then
    .error "Error en el cálculo del estadístico Z. Desviación estándar igual a cero."
  else
    let R := contar_rachas (secuencia datos)
    let sigma_R := nf.sqrt (sigma_R_squared datos)
    let Z := |(R : ℚ) - mu_R datos| / sigma_R
    let valor_critico := nf.ppf (1 - alpha / 2)
    let p_valor := 2 * (1 - nf.cdf |Z|)
    .ok
      { estadistico := Z
        valor_critico := valor_critico
        p_valor := p_valor
        rechaza_h0 := decide (valor_critico < Z)
        alpha := alpha
        n_total := datos.length
        umbral := umbral
        n1 := n1 datos
        n2 := n2 datos
        rachas_observadas := R
        rachas_esperadas := mu_R datos
        desviacion_estandar := sigma_R }

end RachasEncimaDebajo

namespace PruebaRachasEncDeb

/-! Embedding of `prueba_rachas_enc_deb.py` (class `RachasEncimaDebajo`).
The symbols use the non-strict comparison `x >= 0.5`; runs are counted by
grouping; each pipeline step mutates instance fields, modelled by the
state record `Estado`. -/

/-- Result dictionary of `_evaluar_hipotesis` (lines 147-160; the constant
`tipo_prueba` string is presentation-only and omitted). -/
structure Resultado where
  estadistico : ℚ
  valor_critico : ℚ
  p_valor : ℚ
  rechaza_h0 : Bool
  alpha : ℚ
  B : ℕ
  mu_B : ℚ
  sigma_B : ℚ
  n1 : ℕ
  n2 : ℕ
  total_datos : ℕ
deriving DecidableEq, Repr

/-- The mutable instance fields set by `__init__` (lines 9-36) and updated
by the pipeline steps.  The pandas `tabla` is modelled as a sorted list of
(length, count) pairs; `conteo_longitudes` as an insertion-ordered
association list mirroring the `defaultdict(int)`. -/
structure Estado where
  numeros : List ℚ
  alpha : ℚ
  simbolos : List Simbolo
  n1 : ℕ
  n2 : ℕ
  grupos : List (Simbolo × ℕ)
  B : ℕ
  conteo_longitudes : List (ℕ × ℕ)
  tabla : List (ℕ × ℕ)
  mu_B : ℚ
  sigma2_B : ℚ
  sigma_B : ℚ
  z_prueba : ℚ
  z_teorico : ℚ
  p_valor : ℚ

/-- The fresh instance built by `__init__(datos, alpha)` (lines 9-36):
every derived field starts out zeroed or empty. -/
def init (datos : List ℚ) (alpha : ℚ) : Estado :=
  { numeros := datos
    alpha := alpha
    simbolos := []
    n1 := 0
    n2 := 0
    grupos := []
    B := 0
    conteo_longitudes := []
    tabla := []
    mu_B := 0
    sigma2_B := 0
    sigma_B := 0
    z_prueba := 0
    z_teorico := 0
    p_valor := 0 }

/-- The symbol sequence `['+' if x >= 0.5 else '-' for x in self.numeros]`
(line 77) as a function of the data. -/
def simbolos (datos : List ℚ) : List Simbolo :=
  datos.map (fun x => if (1 : ℚ)/2 ≤ x then .mas else .menos)

/-- `self.n1` after `_contar_simbolos`, as a function of the data. -/
def n1 (datos : List ℚ) : ℕ := (simbolos datos).count .mas

/-- `self.n2` after `_contar_simbolos`, as a function of the data. -/
def n2 (datos : List ℚ) : ℕ := (simbolos datos).count .menos

/-- The grouping loop of `_agrupar_simbolos` (lines 94-105), after the
first symbol has been split off: `actual` and `longitud` are the pending
run; each equal symbol extends it, each different one closes it. -/
def agruparDesde (actual : Simbolo) (longitud : ℕ) :
    List Simbolo → List (Simbolo × ℕ)
  | [] => [(actual, longitud)]
  | s :: rest =>
      if s = actual then agruparDesde actual (longitud + 1) rest
      else (actual, longitud) :: agruparDesde s 1 rest

/-- `_agrupar_simbolos` as a pure function: the list of maximal runs of the
symbol sequence, in left-to-right order. -/
def agrupar : List Simbolo → List (Simbolo × ℕ)
  | [] => []
  | s :: rest => agruparDesde s 1 rest

/-- Expansion of a run list back into a symbol sequence: each run symbol
repeated by its length, in run order. -/
def expandir : List (Simbolo × ℕ) → List Simbolo
  | [] => []
  | (s, l) :: rest => List.replicate l s ++ expandir rest

/-- `mu_B = (2*n1*n2)/(n1+n2) + 1` (line 123), as a function of the data. -/
def mu_B (datos : List ℚ) : ℚ :=
  2 * (n1 datos : ℚ) * (n2 datos : ℚ) / ((n1 datos : ℚ) + (n2 datos : ℚ)) + 1

/-- `sigma2_B` (line 126), as a function of the data. -/
def sigma2_B (datos : List ℚ) : ℚ :=
  (2 * (n1 datos : ℚ) * (n2 datos : ℚ) *
      (2 * (n1 datos : ℚ) * (n2 datos : ℚ) - (n1 datos : ℚ) - (n2 datos : ℚ))) /
    (((n1 datos : ℚ) + (n2 datos : ℚ)) ^ 2 * ((n1 datos : ℚ) + (n2 datos : ℚ) - 1))

/-- One `defaultdict(int)` increment: bump the count of key `l`, appending
the key with count 1 when absent. -/
def incrementa (l : ℕ) : List (ℕ × ℕ) → List (ℕ × ℕ)
  | [] => [(l, 1)]
  | (k, v) :: rest =>
      if k = l then (k, v + 1) :: rest else (k, v) :: incrementa l rest

/-- Insertion into a list of pairs sorted by key, used to model
`sorted(self.conteo_longitudes.keys())` of `_crear_tabla`. -/
def insertaOrdenado (p : ℕ × ℕ) : List (ℕ × ℕ) → List (ℕ × ℕ)
  | [] => [p]
  | q :: rest => if p.1 ≤ q.1 then p :: q :: rest else q :: insertaOrdenado p rest

/-- `_convertir_a_simbolos` (lines 75-77). -/
def convertir_a_simbolos (e : Estado) : Estado :=
  { e with simbolos := simbolos e.numeros }

/-- `_contar_simbolos` (lines 79-82). -/
def contar_simbolos (e : Estado) : Estado :=
  { e with n1 := e.simbolos.count .mas, n2 := e.simbolos.count .menos }

/-- `_agrupar_simbolos` (lines 84-105): on an empty symbol sequence it
returns early, leaving `grupos` and `B` untouched; otherwise it stores the
run list and its length (the loop increments `self.B` exactly once per
appended group). -/
def agrupar_simbolos (e : Estado) : Estado :=
  match e.simbolos with
  | [] => e
  | s :: rest =>
      let gs := agruparDesde s 1 rest
      { e with grupos := gs, B := gs.length }

/-- `_contar_longitudes` (lines 107-111). -/
def contar_longitudes (e : Estado) : Estado :=
  { e with conteo_longitudes := e.grupos.foldl (fun acc g => incrementa g.2 acc) [] }

/-- `_crear_tabla` (lines 113-118): the (length, count) pairs sorted by
length. -/
def crear_tabla (e : Estado) : Estado :=
  { e with tabla := e.conteo_longitudes.foldl (fun acc p => insertaOrdenado p acc) [] }

/-- `_calcular_estadisticos` (lines 120-141).  The Boolean is `false` when
a `ZeroDivisionError` is raised (caught by `ejecutar`); the returned state
carries the assignments made before the raising line. -/
def calcular_estadisticos (nf : NormalFuncs) (e : Estado) : Estado × Bool :=
  if ((e.n1 : ℚ) + (e.n2 : ℚ)) = 0 then (e, false)
  else
    let mu := 2 * (e.n1 : ℚ) * (e.n2 : ℚ) / ((e.n1 : ℚ) + (e.n2 : ℚ)) + 1
    let e1 := { e with mu_B := mu }
    if (((e.n1 : ℚ) + (e.n2 : ℚ)) ^ 2 * ((e.n1 : ℚ) + (e.n2 : ℚ) - 1)) = 0 then
      (e1, false)
    else
      let s2 := (2 * (e.n1 : ℚ) * (e.n2 : ℚ) *
          (2 * (e.n1 : ℚ) * (e.n2 : ℚ) - (e.n1 : ℚ) - (e.n2 : ℚ))) /
        (((e.n1 : ℚ) + (e.n2 : ℚ)) ^ 2 * ((e.n1 : ℚ) + (e.n2 : ℚ) - 1))
      let sig := nf.sqrt s2
      let z := if sig ≠ 0 then |((e.B : ℚ) - mu) / sig| else 0
      let zt := nf.ppf (1 - e.alpha / 2)
      let p := 2 * (1 - nf.cdf |z|)
      ({ e1 with sigma2_B := s2, sigma_B := sig, z_prueba := z,
                 z_teorico := zt, p_valor := p }, true)

/-- `_evaluar_hipotesis` (lines 143-160). -/
def evaluar_hipotesis (e : Estado) : Resultado :=
  { estadistico := e.z_prueba
    valor_critico := e.z_teorico
    p_valor := e.p_valor
    rechaza_h0 := decide (e.z_teorico < |e.z_prueba|)
    alpha := e.alpha
    B := e.B
    mu_B := e.mu_B
    sigma_B := e.sigma_B
    n1 := e.n1
    n2 := e.n2
    total_datos := e.numeros.length }

/-- `ejecutar` (lines 38-73): the pipeline of mutating steps; the
`try/except` around it turns a raised `ZeroDivisionError` into the
`{'error': True, ...}` dictionary, modelled as `Except.error`. -/
def ejecutar (nf : NormalFuncs) (e : Estado) : Estado × Except String Resultado :=
  let e1 := convertir_a_simbolos e
  let e2 := contar_simbolos e1
  let e3 := agrupar_simbolos e2
  let e4 := contar_longitudes e3
  let e5 := crear_tabla e4
  let r := calcular_estadisticos nf e5
  (r.1,
    if r.2 then .ok (evaluar_hipotesis r.1)
    else .error "Error en la prueba de rachas: division by zero")

/-- A fresh test invocation: construct the instance and call `ejecutar`,
keeping only the returned dictionary. -/
def correr (nf : NormalFuncs) (datos : List ℚ) (alpha : ℚ) :
    Except String Resultado :=
  (ejecutar nf (init datos alpha)).2

/-- `self.B` after a fresh run, as a function of the data: the number of
maximal runs of the symbol sequence. -/
def Bnum (datos : List ℚ) : ℕ := (agrupar (simbolos datos)).length

/-- `self.z_prueba` after a fresh run (lines 132-135), as a function of the
data: `abs((B - mu_B) / sigma_B)` when `sigma_B ≠ 0`, and `0` otherwise. -/
def zPrueba (nf : NormalFuncs) (datos : List ℚ) : ℚ :=
  if nf.sqrt (sigma2_B datos) ≠ 0 then
    |((Bnum datos : ℚ) - mu_B datos) / nf.sqrt (sigma2_B datos)|
  else 0

end PruebaRachasEncDeb

/-- The alternating data sequence [0.1, 0.9, 0.1, 0.9, ...] with `n` pairs. -/
def alternar : ℕ → List ℚ
  | 0 => []
  | n + 1 => 1/10 :: 9/10 :: alternar n

/-- The alternating sequence [0.1, 0.9, 0.1, 0.9, ...] of length 100. -/
def datosAlternantes : List ℚ := alternar 50

/-- The symbol sequence of the alternating data: `n` pairs `-`, `+`. -/
def patron : ℕ → List Simbolo
  | 0 => []
  | n + 1 => .menos :: .mas :: patron n

/-! Helper lemmas. -/

lemma menos_ne_mas : Simbolo.menos ≠ Simbolo.mas := fun h => nomatch h

lemma mas_ne_menos : Simbolo.mas ≠ Simbolo.menos := fun h => nomatch h

lemma count_mas_add_count_menos (s : List Simbolo) :
    s.count Simbolo.mas + s.count Simbolo.menos = s.length := by
  induction s with
  | nil => rfl
  | cons a r ih => cases a <;> simp [List.count_cons, ih] <;> omega

namespace PruebaRachasEncDeb

lemma expandir_agruparDesde :
    ∀ (rest : List Simbolo) (a : Simbolo) (l : ℕ),
      expandir (agruparDesde a l rest) = List.replicate l a ++ rest := by
  intro rest
  induction rest with
  | nil => intro a l; simp [agruparDesde, expandir]
  | cons s r ih =>
      intro a l
      rw [agruparDesde]
      by_cases h : s = a
      · rw [if_pos h, ih, h, List.replicate_succ']
        simp
      · rw [if_neg h]
        simp [expandir, ih]

lemma expandir_agrupar (s : List Simbolo) : expandir (agrupar s) = s := by
  cases s with
  | nil => rfl
  | cons a rest => simp [agrupar, expandir_agruparDesde]

lemma expandir_length (gs : List (Simbolo × ℕ)) :
    (expandir gs).length = (gs.map Prod.snd).sum := by
  induction gs with
  | nil => rfl
  | cons g rest ih => cases g with | mk s l => simp [expandir, ih]

lemma sum_agrupar (s : List Simbolo) :
    ((agrupar s).map Prod.snd).sum = s.length := by
  rw [← expandir_length, expandir_agrupar]

lemma agruparDesde_length :
    ∀ (rest : List Simbolo) (a : Simbolo) (l : ℕ),
      (agruparDesde a l rest).length = 1 + RachasEncimaDebajo.cambios a rest := by
  intro rest
  induction rest with
  | nil => intro a l; simp [agruparDesde, RachasEncimaDebajo.cambios]
  | cons s r ih =>
      intro a l
      rw [agruparDesde, RachasEncimaDebajo.cambios]
      by_cases h : s = a
      · simp [h, ih]
      · simp [h, ih]
        omega

lemma cambios_le (rest : List Simbolo) :
    ∀ a, RachasEncimaDebajo.cambios a rest ≤ rest.length := by
  induction rest with
  | nil => intro a; simp [RachasEncimaDebajo.cambios]
  | cons s r ih =>
      intro a
      rw [RachasEncimaDebajo.cambios]
      have hs := ih s
      by_cases h : s = a
      · subst h; simp; omega
      · simp [h]; omega

lemma contar_rachas_eq_agrupar (s : List Simbolo) :
    RachasEncimaDebajo.contar_rachas s = (agrupar s).length := by
  cases s with
  | nil => rfl
  | cons a rest =>
      rw [RachasEncimaDebajo.contar_rachas, agrupar, agruparDesde_length]

lemma cambios_eq_cambiosAdyacentes :
    ∀ (rest : List Simbolo) (a : Simbolo),
      RachasEncimaDebajo.cambios a rest = cambiosAdyacentes (a :: rest) := by
  intro rest
  induction rest with
  | nil => intro a; simp [RachasEncimaDebajo.cambios, cambiosAdyacentes]
  | cons s r ih =>
      intro a
      rw [RachasEncimaDebajo.cambios]
      have hs := ih s
      by_cases h : s = a
      · subst h
        simp [cambiosAdyacentes, List.countP_cons] at hs ⊢
        omega
      · have ha : a ≠ s := fun hc => h hc.symm
        simp [cambiosAdyacentes, List.countP_cons, h, ha] at hs ⊢
        omega

end PruebaRachasEncDeb

namespace RachasEncimaDebajo

lemma n1_add_n2_strict (datos : List ℚ) :
    n1 datos + n2 datos = datos.length := by
  rw [n1, n2, count_mas_add_count_menos]
  simp [secuencia]

lemma denominador_ne_zero (datos : List ℚ)
    (h1 : 1 ≤ n1 datos) (h2 : 1 ≤ n2 datos) : denominador datos ≠ 0 := by
  have hq1 : (1 : ℚ) ≤ (n1 datos : ℚ) := by exact_mod_cast h1
  have hq2 : (1 : ℚ) ≤ (n2 datos : ℚ) := by exact_mod_cast h2
  have hs : (0 : ℚ) < (n1 datos : ℚ) + (n2 datos : ℚ) := by linarith
  have hm : (0 : ℚ) < (n1 datos : ℚ) + (n2 datos : ℚ) - 1 := by linarith
  have : (0 : ℚ) < denominador datos := by
    rw [denominador]; positivity
  exact ne_of_gt this

lemma ejecutar_eq_ok (nf : NormalFuncs) (datos : List ℚ) (alpha : ℚ)
    (h1 : 1 ≤ n1 datos) (h2 : 1 ≤ n2 datos)
    (hσ : nf.sqrt (sigma_R_squared datos) ≠ 0) :
    ejecutar nf datos alpha = .ok
      { estadistico := |(contar_rachas (secuencia datos) : ℚ) - mu_R datos| /
          nf.sqrt (sigma_R_squared datos)
        valor_critico := nf.ppf (1 - alpha / 2)
        p_valor := 2 * (1 - nf.cdf
          |(|(contar_rachas (secuencia datos) : ℚ) - mu_R datos| /
              nf.sqrt (sigma_R_squared datos))|)
        rechaza_h0 := decide (nf.ppf (1 - alpha / 2) <
          |(contar_rachas (secuencia datos) : ℚ) - mu_R datos| /
            nf.sqrt (sigma_R_squared datos))
        alpha := alpha
        n_total := datos.length
        umbral := umbral
        n1 := n1 datos
        n2 := n2 datos
        rachas_observadas := contar_rachas (secuencia datos)
        rachas_esperadas := mu_R datos
        desviacion_estandar := nf.sqrt (sigma_R_squared datos) } := by
  have hlen : ¬ datos.length = 0 := by
    have := n1_add_n2_strict datos; omega
  have hor : ¬ (n1 datos + n2 datos = 0 ∨ n1 datos = 0 ∨ n2 datos = 0) := by
    push_neg
    exact ⟨by omega, by omega, by omega⟩
  rw [ejecutar, if_neg hlen, if_neg hor, if_neg (denominador_ne_zero datos h1 h2),
    if_neg hσ]

end RachasEncimaDebajo

namespace PruebaRachasEncDeb

lemma n1_add_n2_ge (datos : List ℚ) : n1 datos + n2 datos = datos.length := by
  rw [n1, n2, count_mas_add_count_menos]
  simp [simbolos]

lemma zPrueba_nonneg (nf : NormalFuncs) (datos : List ℚ) :
    0 ≤ zPrueba nf datos := by
  rw [zPrueba]
  split
  · exact abs_nonneg _
  · exact le_refl 0

lemma ejecutar_eq_ok_state (nf : NormalFuncs) (e : Estado)
    (hlen : 2 ≤ e.numeros.length) :
    (ejecutar nf e).2 = .ok
      { estadistico := zPrueba nf e.numeros
        valor_critico := nf.ppf (1 - e.alpha / 2)
        p_valor := 2 * (1 - nf.cdf |zPrueba nf e.numeros|)
        rechaza_h0 := decide (nf.ppf (1 - e.alpha / 2) < |zPrueba nf e.numeros|)
        alpha := e.alpha
        B := Bnum e.numeros
        mu_B := mu_B e.numeros
        sigma_B := nf.sqrt (sigma2_B e.numeros)
        n1 := n1 e.numeros
        n2 := n2 e.numeros
        total_datos := e.numeros.length } := by
  have hq : ((n1 e.numeros : ℚ) + (n2 e.numeros : ℚ)) = (e.numeros.length : ℚ) := by
    exact_mod_cast congrArg (Nat.cast : ℕ → ℚ) (n1_add_n2_ge e.numeros)
  have hl2 : (2 : ℚ) ≤ (e.numeros.length : ℚ) := by exact_mod_cast hlen
  have hc1 : ¬ ((n1 e.numeros : ℚ) + (n2 e.numeros : ℚ)) = 0 := by
    rw [hq]; linarith
  have hc2 : ¬ (((n1 e.numeros : ℚ) + (n2 e.numeros : ℚ)) ^ 2 *
      ((n1 e.numeros : ℚ) + (n2 e.numeros : ℚ) - 1)) = 0 := by
    rw [hq]
    have h1 : (0 : ℚ) < (e.numeros.length : ℚ) ^ 2 := by positivity
    have h2 : (0 : ℚ) < (e.numeros.length : ℚ) - 1 := by linarith
    exact ne_of_gt (mul_pos h1 h2)
  cases h : e.numeros with
  | nil => rw [h] at hlen; simp at hlen
  | cons x xs =>
      rw [h] at hc1 hc2
      simp only [ejecutar, convertir_a_simbolos, contar_simbolos,
        agrupar_simbolos, contar_longitudes, crear_tabla, calcular_estadisticos,
        evaluar_hipotesis, simbolos, n1, n2, mu_B, sigma2_B, Bnum, zPrueba,
        agrupar, List.map_cons, h] at hc1 hc2 ⊢
      rw [if_neg hc1, if_neg hc2]
      simp

lemma correr_eq_ok (nf : NormalFuncs) (datos : List ℚ) (alpha : ℚ)
    (hlen : 2 ≤ datos.length) :
    correr nf datos alpha = .ok
      { estadistico := zPrueba nf datos
        valor_critico := nf.ppf (1 - alpha / 2)
        p_valor := 2 * (1 - nf.cdf |zPrueba nf datos|)
        rechaza_h0 := decide (nf.ppf (1 - alpha / 2) < |zPrueba nf datos|)
        alpha := alpha
        B := Bnum datos
        mu_B := mu_B datos
        sigma_B := nf.sqrt (sigma2_B datos)
        n1 := n1 datos
        n2 := n2 datos
        total_datos := datos.length } := by
  rw [correr, ejecutar_eq_ok_state nf (init datos alpha) hlen]
  rfl

lemma calcular_numeros (nf : NormalFuncs) (e : Estado) :
    (calcular_estadisticos nf e).1.numeros = e.numeros := by
  rw [calcular_estadisticos]
  split
  · rfl
  · split <;> rfl

lemma calcular_alpha (nf : NormalFuncs) (e : Estado) :
    (calcular_estadisticos nf e).1.alpha = e.alpha := by
  rw [calcular_estadisticos]
  split
  · rfl
  · split <;> rfl

lemma agrupar_simbolos_numeros (e : Estado) :
    (agrupar_simbolos e).numeros = e.numeros := by
  rw [agrupar_simbolos]
  split <;> rfl

lemma agrupar_simbolos_alpha (e : Estado) :
    (agrupar_simbolos e).alpha = e.alpha := by
  rw [agrupar_simbolos]
  split <;> rfl

lemma ejecutar_numeros (nf : NormalFuncs) (e : Estado) :
    (ejecutar nf e).1.numeros = e.numeros := by
  show (calcular_estadisticos nf _).1.numeros = _
  rw [calcular_numeros]
  show (agrupar_simbolos _).numeros = _
  rw [agrupar_simbolos_numeros]
  rfl

lemma ejecutar_alpha (nf : NormalFuncs) (e : Estado) :
    (ejecutar nf e).1.alpha = e.alpha := by
  show (calcular_estadisticos nf _).1.alpha = _
  rw [calcular_alpha]
  show (agrupar_simbolos _).alpha = _
  rw [agrupar_simbolos_alpha]
  rfl

lemma ejecutar_len1_error (nf : NormalFuncs) (e : Estado)
    (hlen : e.numeros.length = 1) :
    (ejecutar nf e).2 = .error "Error en la prueba de rachas: division by zero" := by
  have hn : n1 e.numeros + n2 e.numeros = 1 := by
    have := n1_add_n2_ge e.numeros; omega
  have hq : ((n1 e.numeros : ℚ) + (n2 e.numeros : ℚ)) = 1 := by
    exact_mod_cast congrArg (Nat.cast : ℕ → ℚ) hn
  have hc1 : ¬ ((n1 e.numeros : ℚ) + (n2 e.numeros : ℚ)) = 0 := by
    rw [hq]; norm_num
  have hc2 : (((n1 e.numeros : ℚ) + (n2 e.numeros : ℚ)) ^ 2 *
      ((n1 e.numeros : ℚ) + (n2 e.numeros : ℚ) - 1)) = 0 := by
    rw [hq]; ring
  cases h : e.numeros with
  | nil => rw [h] at hlen; simp at hlen
  | cons x xs =>
      rw [h] at hc1 hc2
      simp only [ejecutar, convertir_a_simbolos, contar_simbolos,
        agrupar_simbolos, contar_longitudes, crear_tabla, calcular_estadisticos,
        evaluar_hipotesis, simbolos, n1, n2, List.map_cons, h] at hc1 hc2 ⊢
      rw [if_neg hc1, if_pos hc2]
      simp

lemma ejecutar_snd_pure (nf : NormalFuncs) (e : Estado) :
    (ejecutar nf e).2 = correr nf e.numeros e.alpha := by
  cases hlen : e.numeros.length with
  | zero =>
      have h : e.numeros = [] := List.length_eq_zero.mp hlen
      simp [ejecutar, correr, init, convertir_a_simbolos, contar_simbolos,
        agrupar_simbolos, contar_longitudes, crear_tabla, calcular_estadisticos,
        evaluar_hipotesis, simbolos, h]
  | succ n =>
      cases n with
      | zero =>
          rw [ejecutar_len1_error nf e hlen, correr,
            ejecutar_len1_error nf (init e.numeros e.alpha) hlen]
      | succ m =>
          have h2 : 2 ≤ e.numeros.length := by omega
          rw [ejecutar_eq_ok_state nf e h2, correr,
            ejecutar_eq_ok_state nf (init e.numeros e.alpha) h2]
          rfl

end PruebaRachasEncDeb

lemma alternar_length (n : ℕ) : (alternar n).length = 2 * n := by
  induction n with
  | zero => rfl
  | succ m ih => simp [alternar, ih]; omega

lemma secuencia_cons (x : ℚ) (l : List ℚ) :
    RachasEncimaDebajo.secuencia (x :: l) =
      (if RachasEncimaDebajo.umbral < x then .mas else .menos) ::
        RachasEncimaDebajo.secuencia l := rfl

lemma simbolos_cons (x : ℚ) (l : List ℚ) :
    PruebaRachasEncDeb.simbolos (x :: l) =
      (if (1 : ℚ)/2 ≤ x then .mas else .menos) ::
        PruebaRachasEncDeb.simbolos l := rfl

lemma secuencia_alternar (n : ℕ) :
    RachasEncimaDebajo.secuencia (alternar n) = patron n := by
  induction n with
  | zero => rfl
  | succ m ih =>
      rw [alternar, patron, secuencia_cons, secuencia_cons, ih,
        if_neg (by norm_num [RachasEncimaDebajo.umbral]),
        if_pos (by norm_num [RachasEncimaDebajo.umbral])]

lemma simbolos_alternar (n : ℕ) :
    PruebaRachasEncDeb.simbolos (alternar n) = patron n := by
  induction n with
  | zero => rfl
  | succ m ih =>
      rw [alternar, patron, simbolos_cons, simbolos_cons, ih,
        if_neg (by norm_num), if_pos (by norm_num)]

lemma count_mas_patron (n : ℕ) : (patron n).count Simbolo.mas = n := by
  induction n with
  | zero => rfl
  | succ m ih =>
      simp [patron, List.count_cons, ih, menos_ne_mas]

lemma count_menos_patron (n : ℕ) : (patron n).count Simbolo.menos = n := by
  induction n with
  | zero => rfl
  | succ m ih =>
      simp [patron, List.count_cons, ih, mas_ne_menos]

lemma cambios_mas_patron (n : ℕ) :
    RachasEncimaDebajo.cambios Simbolo.mas (patron n) = 2 * n := by
  induction n with
  | zero => rfl
  | succ m ih =>
      simp [patron, RachasEncimaDebajo.cambios, menos_ne_mas, mas_ne_menos, ih]
      omega

lemma contar_rachas_patron (n : ℕ) (h : 1 ≤ n) :
    RachasEncimaDebajo.contar_rachas (patron n) = 2 * n := by
  cases n with
  | zero => omega
  | succ m =>
      simp [patron, RachasEncimaDebajo.contar_rachas, RachasEncimaDebajo.cambios,
        mas_ne_menos, cambios_mas_patron]
      omega

lemma n1_alt : RachasEncimaDebajo.n1 datosAlternantes = 50 := by
  rw [datosAlternantes, RachasEncimaDebajo.n1, secuencia_alternar, count_mas_patron]

lemma n2_alt : RachasEncimaDebajo.n2 datosAlternantes = 50 := by
  rw [datosAlternantes, RachasEncimaDebajo.n2, secuencia_alternar, count_menos_patron]

lemma rachas_alt :
    RachasEncimaDebajo.contar_rachas (RachasEncimaDebajo.secuencia datosAlternantes) = 100 := by
  rw [datosAlternantes, secuencia_alternar, contar_rachas_patron 50 (by norm_num)]

lemma mu_alt : RachasEncimaDebajo.mu_R datosAlternantes = 51 := by
  rw [RachasEncimaDebajo.mu_R, n1_alt, n2_alt]
  norm_num

lemma sig_alt : RachasEncimaDebajo.sigma_R_squared datosAlternantes = 2450/99 := by
  rw [RachasEncimaDebajo.sigma_R_squared, RachasEncimaDebajo.numerador,
    RachasEncimaDebajo.denominador, n1_alt, n2_alt]
  norm_num

lemma n1B_alt : PruebaRachasEncDeb.n1 datosAlternantes = 50 := by
  rw [datosAlternantes, PruebaRachasEncDeb.n1, simbolos_alternar, count_mas_patron]

lemma n2B_alt : PruebaRachasEncDeb.n2 datosAlternantes = 50 := by
  rw [datosAlternantes, PruebaRachasEncDeb.n2, simbolos_alternar, count_menos_patron]

lemma bnum_alt : PruebaRachasEncDeb.Bnum datosAlternantes = 100 := by
  rw [datosAlternantes, PruebaRachasEncDeb.Bnum, simbolos_alternar,
    ← PruebaRachasEncDeb.contar_rachas_eq_agrupar,
    contar_rachas_patron 50 (by norm_num)]

lemma muB_alt : PruebaRachasEncDeb.mu_B datosAlternantes = 51 := by
  rw [PruebaRachasEncDeb.mu_B, n1B_alt, n2B_alt]
  norm_num

lemma sigB_alt : PruebaRachasEncDeb.sigma2_B datosAlternantes = 2450/99 := by
  rw [PruebaRachasEncDeb.sigma2_B, n1B_alt, n2B_alt]
  norm_num

/-! Claim theorems. -/

/-- C4: for every symbol sequence of length m ≥ 1, the run grouper produces
an ordered run list whose lengths sum exactly to m, and expanding the runs
in order (each symbol repeated by its run length) reproduces the original
symbol sequence exactly — the runs partition the sequence with no gaps and
no overlaps. -/
theorem c4_particion_agrupador (s : List Simbolo) (h : 1 ≤ s.length) :
    ((PruebaRachasEncDeb.agrupar s).map Prod.snd).sum = s.length ∧
    PruebaRachasEncDeb.expandir (PruebaRachasEncDeb.agrupar s) = s :=
  ⟨PruebaRachasEncDeb.sum_agrupar s, PruebaRachasEncDeb.expandir_agrupar s⟩

/-- Witness for C4 at the concrete sequence [+, +, -]. -/
theorem c4_particion_agrupador_witness :
    1 ≤ ([Simbolo.mas, Simbolo.mas, Simbolo.menos] : List Simbolo).length ∧
    (((PruebaRachasEncDeb.agrupar [Simbolo.mas, Simbolo.mas, Simbolo.menos]).map
        Prod.snd).sum = ([Simbolo.mas, Simbolo.mas, Simbolo.menos] : List Simbolo).length ∧
      PruebaRachasEncDeb.expandir
          (PruebaRachasEncDeb.agrupar [Simbolo.mas, Simbolo.mas, Simbolo.menos]) =
        [Simbolo.mas, Simbolo.mas, Simbolo.menos]) :=
  ⟨by decide, c4_particion_agrupador [Simbolo.mas, Simbolo.mas, Simbolo.menos] (by decide)⟩

/-- C9 (implicit): for every non-empty input sequence of length n, the
computed number of runs B satisfies 1 ≤ B ≤ n and equals 1 plus the number
of adjacent positions where the symbol differs from the previous one, in
both run-counting implementations (transition count of
rachas_encima_debajo and group count of prueba_rachas_enc_deb). -/
theorem c9_invariante_numero_rachas (datos : List ℚ) (h : datos ≠ []) :
    (1 ≤ RachasEncimaDebajo.contar_rachas (RachasEncimaDebajo.secuencia datos) ∧
      RachasEncimaDebajo.contar_rachas (RachasEncimaDebajo.secuencia datos) ≤ datos.length ∧
      RachasEncimaDebajo.contar_rachas (RachasEncimaDebajo.secuencia datos) =
        1 + cambiosAdyacentes (RachasEncimaDebajo.secuencia datos)) ∧
    (1 ≤ PruebaRachasEncDeb.Bnum datos ∧
      PruebaRachasEncDeb.Bnum datos ≤ datos.length ∧
      PruebaRachasEncDeb.Bnum datos =
        1 + cambiosAdyacentes (PruebaRachasEncDeb.simbolos datos)) := by
  have key : ∀ (a : Simbolo) (rest : List Simbolo),
      1 ≤ RachasEncimaDebajo.contar_rachas (a :: rest) ∧
      RachasEncimaDebajo.contar_rachas (a :: rest) ≤ rest.length + 1 ∧
      RachasEncimaDebajo.contar_rachas (a :: rest) =
        1 + cambiosAdyacentes (a :: rest) := by
    intro a rest
    have h1 : RachasEncimaDebajo.contar_rachas (a :: rest) =
        1 + RachasEncimaDebajo.cambios a rest := rfl
    have h2 := PruebaRachasEncDeb.cambios_le rest a
    have h3 := PruebaRachasEncDeb.cambios_eq_cambiosAdyacentes rest a
    exact ⟨by omega, by omega, by rw [h1, h3]⟩
  cases datos with
  | nil => exact absurd rfl h
  | cons x xs =>
      constructor
      · rw [secuencia_cons]
        have hk := key (if RachasEncimaDebajo.umbral < x then .mas else .menos)
          (RachasEncimaDebajo.secuencia xs)
        have hl : (RachasEncimaDebajo.secuencia xs).length = xs.length := by
          simp [RachasEncimaDebajo.secuencia]
        refine ⟨hk.1, ?_, hk.2.2⟩
        have hb := hk.2.1
        rw [hl] at hb
        simpa using hb
      · rw [PruebaRachasEncDeb.Bnum, ← PruebaRachasEncDeb.contar_rachas_eq_agrupar,
          simbolos_cons]
        have hk := key (if (1 : ℚ)/2 ≤ x then .mas else .menos)
          (PruebaRachasEncDeb.simbolos xs)
        have hl : (PruebaRachasEncDeb.simbolos xs).length = xs.length := by
          simp [PruebaRachasEncDeb.simbolos]
        refine ⟨hk.1, ?_, hk.2.2⟩
        have hb := hk.2.1
        rw [hl] at hb
        simpa using hb

/-- Witness for C9 at the concrete input [0.1, 0.9, 0.9]. -/
theorem c9_invariante_numero_rachas_witness :
    ([(1:ℚ)/10, 9/10, 9/10] : List ℚ) ≠ [] ∧
    ((1 ≤ RachasEncimaDebajo.contar_rachas (RachasEncimaDebajo.secuencia [1/10, 9/10, 9/10]) ∧
      RachasEncimaDebajo.contar_rachas (RachasEncimaDebajo.secuencia [1/10, 9/10, 9/10]) ≤
        ([(1:ℚ)/10, 9/10, 9/10] : List ℚ).length ∧
      RachasEncimaDebajo.contar_rachas (RachasEncimaDebajo.secuencia [1/10, 9/10, 9/10]) =
        1 + cambiosAdyacentes (RachasEncimaDebajo.secuencia [1/10, 9/10, 9/10])) ∧
    (1 ≤ PruebaRachasEncDeb.Bnum [1/10, 9/10, 9/10] ∧
      PruebaRachasEncDeb.Bnum [1/10, 9/10, 9/10] ≤ ([(1:ℚ)/10, 9/10, 9/10] : List ℚ).length ∧
      PruebaRachasEncDeb.Bnum [1/10, 9/10, 9/10] =
        1 + cambiosAdyacentes (PruebaRachasEncDeb.simbolos [1/10, 9/10, 9/10]))) :=
  ⟨by simp, c9_invariante_numero_rachas [1/10, 9/10, 9/10] (by simp)⟩

/-- C6: on the empty input sequence both implementations fail with a
structured error before any statistic is produced: rachas_encima_debajo
raises its constructor ValueError, prueba_rachas_enc_deb catches the
ZeroDivisionError of the first statistic line and returns an error
dictionary. -/
theorem c6_entrada_vacia (nf : NormalFuncs) (alpha : ℚ) :
    RachasEncimaDebajo.ejecutar nf [] alpha =
      .error "El conjunto de datos no puede estar vacío." ∧
    PruebaRachasEncDeb.correr nf [] alpha =
      .error "Error en la prueba de rachas: division by zero" := by
  constructor
  · rfl
  · simp [PruebaRachasEncDeb.correr, PruebaRachasEncDeb.ejecutar,
      PruebaRachasEncDeb.init, PruebaRachasEncDeb.convertir_a_simbolos,
      PruebaRachasEncDeb.contar_simbolos, PruebaRachasEncDeb.agrupar_simbolos,
      PruebaRachasEncDeb.contar_longitudes, PruebaRachasEncDeb.crear_tabla,
      PruebaRachasEncDeb.calcular_estadisticos, PruebaRachasEncDeb.evaluar_hipotesis,
      PruebaRachasEncDeb.simbolos]

/-- C2 (code bug): on the constant sequence [0.1, 0.1] of length 2 (so
n1 = 0), rachas_encima_debajo fails with the degenerate-input error as the
claim requires, but prueba_rachas_enc_deb returns a fabricated success
result with statistic 0, p-value 1 and rejectNull false instead of
failing. -/
theorem c2_secuencia_constante :
    RachasEncimaDebajo.ejecutar nfEjemplo [1/10, 1/10] (1/20) =
      .error "No se pueden calcular las rachas. Verifique que haya datos tanto por encima como por debajo del umbral." ∧
    PruebaRachasEncDeb.correr nfEjemplo [1/10, 1/10] (1/20) = .ok
      { estadistico := 0, valor_critico := 2, p_valor := 1, rechaza_h0 := false,
        alpha := 1/20, B := 1, mu_B := 1, sigma_B := 0, n1 := 0, n2 := 2,
        total_datos := 2 } := by
  constructor
  · norm_num [RachasEncimaDebajo.ejecutar, RachasEncimaDebajo.n1,
      RachasEncimaDebajo.n2, RachasEncimaDebajo.secuencia, RachasEncimaDebajo.umbral,
      List.count_cons, List.count_nil, menos_ne_mas, mas_ne_menos]
  · rw [PruebaRachasEncDeb.correr_eq_ok nfEjemplo [1/10, 1/10] (1/20) (by norm_num)]
    norm_num [PruebaRachasEncDeb.zPrueba, PruebaRachasEncDeb.sigma2_B,
      PruebaRachasEncDeb.mu_B, PruebaRachasEncDeb.Bnum, PruebaRachasEncDeb.n1,
      PruebaRachasEncDeb.n2, PruebaRachasEncDeb.simbolos, nfEjemplo,
      PruebaRachasEncDeb.agrupar, PruebaRachasEncDeb.agruparDesde,
      List.count_cons, List.count_nil, menos_ne_mas, mas_ne_menos]

/-- C10 (implicit): in prueba_rachas_enc_deb, when the computed standard
deviation sigma_B is zero (as for a constant sequence of length ≥ 2),
ejecutar does not fail: it returns a normal result with statistic 0,
p-value 1 and rejectNull false (given that the library cdf satisfies
Φ(0) = 1/2 and the critical value is non-negative). -/
theorem c10_sigma_cero_no_falla (nf : NormalFuncs) (datos : List ℚ) (alpha : ℚ)
    (hlen : 2 ≤ datos.length)
    (hσ : nf.sqrt (PruebaRachasEncDeb.sigma2_B datos) = 0)
    (hcdf : nf.cdf 0 = 1/2)
    (hppf : 0 ≤ nf.ppf (1 - alpha / 2)) :
    PruebaRachasEncDeb.correr nf datos alpha = .ok
      { estadistico := 0
        valor_critico := nf.ppf (1 - alpha / 2)
        p_valor := 1
        rechaza_h0 := false
        alpha := alpha
        B := PruebaRachasEncDeb.Bnum datos
        mu_B := PruebaRachasEncDeb.mu_B datos
        sigma_B := 0
        n1 := PruebaRachasEncDeb.n1 datos
        n2 := PruebaRachasEncDeb.n2 datos
        total_datos := datos.length } := by
  have hz : PruebaRachasEncDeb.zPrueba nf datos = 0 := by
    rw [PruebaRachasEncDeb.zPrueba, if_neg]
    simp [hσ]
  rw [PruebaRachasEncDeb.correr_eq_ok nf datos alpha hlen, hz, hσ]
  simp only [abs_zero, hcdf, Except.ok.injEq, PruebaRachasEncDeb.Resultado.mk.injEq,
    decide_eq_false_iff_not, not_lt]
  norm_num [hppf]

/-- Witness for C10 at the constant sequence [0.1, 0.1] with alpha = 0.05
and the concrete library functions nfEjemplo. -/
theorem c10_sigma_cero_no_falla_witness :
    (2 ≤ ([(1:ℚ)/10, 1/10] : List ℚ).length ∧
      nfEjemplo.sqrt (PruebaRachasEncDeb.sigma2_B [1/10, 1/10]) = 0 ∧
      nfEjemplo.cdf 0 = 1/2 ∧ 0 ≤ nfEjemplo.ppf (1 - (1/20 : ℚ) / 2)) ∧
    PruebaRachasEncDeb.correr nfEjemplo [1/10, 1/10] (1/20) = .ok
      { estadistico := 0
        valor_critico := nfEjemplo.ppf (1 - (1/20 : ℚ) / 2)
        p_valor := 1
        rechaza_h0 := false
        alpha := 1/20
        B := PruebaRachasEncDeb.Bnum [1/10, 1/10]
        mu_B := PruebaRachasEncDeb.mu_B [1/10, 1/10]
        sigma_B := 0
        n1 := PruebaRachasEncDeb.n1 [1/10, 1/10]
        n2 := PruebaRachasEncDeb.n2 [1/10, 1/10]
        total_datos := ([(1:ℚ)/10, 1/10] : List ℚ).length } :=
  ⟨⟨by norm_num,
    by norm_num [PruebaRachasEncDeb.sigma2_B, PruebaRachasEncDeb.n1,
      PruebaRachasEncDeb.n2, PruebaRachasEncDeb.simbolos, nfEjemplo,
      List.count_cons, List.count_nil, menos_ne_mas, mas_ne_menos],
    rfl, by norm_num [nfEjemplo]⟩,
   c10_sigma_cero_no_falla nfEjemplo [1/10, 1/10] (1/20) (by norm_num)
    (by norm_num [PruebaRachasEncDeb.sigma2_B, PruebaRachasEncDeb.n1,
      PruebaRachasEncDeb.n2, PruebaRachasEncDeb.simbolos, nfEjemplo,
      List.count_cons, List.count_nil, menos_ne_mas, mas_ne_menos])
    rfl (by norm_num [nfEjemplo])⟩

/-- C1 as stated is too strong: at [0.1, 0.9] both symbol classes are
inhabited (n1 = n2 = 1, n1+n2 = 2), yet rachas_encima_debajo.ejecutar
returns the zero-standard-deviation error instead of a result (the
variance 2·n1·n2·(2·n1·n2−n1−n2)/... is 0 when n1 = n2 = 1). -/
theorem c1_contraejemplo :
    RachasEncimaDebajo.n1 [1/10, 9/10] = 1 ∧
    RachasEncimaDebajo.n2 [1/10, 9/10] = 1 ∧
    RachasEncimaDebajo.ejecutar nfEjemplo [1/10, 9/10] (1/20) =
      .error "Error en el cálculo del estadístico Z. Desviación estándar igual a cero." := by
  refine ⟨?_, ?_, ?_⟩ <;>
    norm_num [RachasEncimaDebajo.ejecutar, RachasEncimaDebajo.n1,
      RachasEncimaDebajo.n2, RachasEncimaDebajo.secuencia, RachasEncimaDebajo.umbral,
      RachasEncimaDebajo.sigma_R_squared, RachasEncimaDebajo.numerador,
      RachasEncimaDebajo.denominador, nfEjemplo,
      List.count_cons, List.count_nil, menos_ne_mas, mas_ne_menos]

/-- C1 (amended): whenever n1 ≥ 1, n2 ≥ 1 and the square root of the
variance is non-zero (with the real square root this excludes exactly
n1 = n2 = 1, where rachas_encima_debajo returns an error instead), both
implementations return a result whose fields satisfy the claimed formulas:
mu_B = 2·n1·n2/(n1+n2) + 1, sigma2_B = 2·n1·n2·(2·n1·n2−n1−n2) /
((n1+n2)²·(n1+n2−1)), statistic |B − mu_B|/sqrt(sigma2_B) with B the
number of maximal runs, criticalValue = ppf(1 − alpha/2),
pValue = 2·(1 − Φ(|z|)), and rejectNull iff z > criticalValue. -/
theorem c1_formulas_resultado (nf : NormalFuncs) (datos : List ℚ) (alpha : ℚ)
    (h1A : 1 ≤ RachasEncimaDebajo.n1 datos) (h2A : 1 ≤ RachasEncimaDebajo.n2 datos)
    (hσA : nf.sqrt (RachasEncimaDebajo.sigma_R_squared datos) ≠ 0)
    (h1B : 1 ≤ PruebaRachasEncDeb.n1 datos) (h2B : 1 ≤ PruebaRachasEncDeb.n2 datos)
    (hσB : 0 < nf.sqrt (PruebaRachasEncDeb.sigma2_B datos)) :
    (∃ r : RachasEncimaDebajo.Resultado,
      RachasEncimaDebajo.ejecutar nf datos alpha = .ok r ∧
      r.rachas_observadas =
        (PruebaRachasEncDeb.agrupar (RachasEncimaDebajo.secuencia datos)).length ∧
      r.rachas_esperadas =
        2 * (RachasEncimaDebajo.n1 datos : ℚ) * (RachasEncimaDebajo.n2 datos : ℚ) /
          ((RachasEncimaDebajo.n1 datos : ℚ) + (RachasEncimaDebajo.n2 datos : ℚ)) + 1 ∧
      r.desviacion_estandar = nf.sqrt
        (2 * (RachasEncimaDebajo.n1 datos : ℚ) * (RachasEncimaDebajo.n2 datos : ℚ) *
            (2 * (RachasEncimaDebajo.n1 datos : ℚ) * (RachasEncimaDebajo.n2 datos : ℚ) -
              (RachasEncimaDebajo.n1 datos : ℚ) - (RachasEncimaDebajo.n2 datos : ℚ)) /
          (((RachasEncimaDebajo.n1 datos : ℚ) + (RachasEncimaDebajo.n2 datos : ℚ)) ^ 2 *
            ((RachasEncimaDebajo.n1 datos : ℚ) + (RachasEncimaDebajo.n2 datos : ℚ) - 1))) ∧
      r.estadistico =
        |(r.rachas_observadas : ℚ) - r.rachas_esperadas| / r.desviacion_estandar ∧
      r.valor_critico = nf.ppf (1 - alpha / 2) ∧
      r.p_valor = 2 * (1 - nf.cdf |r.estadistico|) ∧
      (r.rechaza_h0 = true ↔ r.valor_critico < r.estadistico)) ∧
    (∃ r : PruebaRachasEncDeb.Resultado,
      PruebaRachasEncDeb.correr nf datos alpha = .ok r ∧
      r.B = (PruebaRachasEncDeb.agrupar (PruebaRachasEncDeb.simbolos datos)).length ∧
      r.mu_B =
        2 * (PruebaRachasEncDeb.n1 datos : ℚ) * (PruebaRachasEncDeb.n2 datos : ℚ) /
          ((PruebaRachasEncDeb.n1 datos : ℚ) + (PruebaRachasEncDeb.n2 datos : ℚ)) + 1 ∧
      r.sigma_B = nf.sqrt
        (2 * (PruebaRachasEncDeb.n1 datos : ℚ) * (PruebaRachasEncDeb.n2 datos : ℚ) *
            (2 * (PruebaRachasEncDeb.n1 datos : ℚ) * (PruebaRachasEncDeb.n2 datos : ℚ) -
              (PruebaRachasEncDeb.n1 datos : ℚ) - (PruebaRachasEncDeb.n2 datos : ℚ)) /
          (((PruebaRachasEncDeb.n1 datos : ℚ) + (PruebaRachasEncDeb.n2 datos : ℚ)) ^ 2 *
            ((PruebaRachasEncDeb.n1 datos : ℚ) + (PruebaRachasEncDeb.n2 datos : ℚ) - 1))) ∧
      r.estadistico = |(r.B : ℚ) - r.mu_B| / r.sigma_B ∧
      r.valor_critico = nf.ppf (1 - alpha / 2) ∧
      r.p_valor = 2 * (1 - nf.cdf |r.estadistico|) ∧
      (r.rechaza_h0 = true ↔ r.valor_critico < r.estadistico)) := by
  constructor
  · rw [RachasEncimaDebajo.ejecutar_eq_ok nf datos alpha h1A h2A hσA]
    refine ⟨_, rfl, PruebaRachasEncDeb.contar_rachas_eq_agrupar _, rfl, rfl, rfl,
      rfl, rfl, ?_⟩
    simp
  · have hlenB : 2 ≤ datos.length := by
      have := PruebaRachasEncDeb.n1_add_n2_ge datos
      omega
    rw [PruebaRachasEncDeb.correr_eq_ok nf datos alpha hlenB]
    have hzz : PruebaRachasEncDeb.zPrueba nf datos =
        |((PruebaRachasEncDeb.Bnum datos : ℚ) - PruebaRachasEncDeb.mu_B datos) /
          nf.sqrt (PruebaRachasEncDeb.sigma2_B datos)| := by
      rw [PruebaRachasEncDeb.zPrueba, if_pos hσB.ne']
    refine ⟨_, rfl, rfl, rfl, rfl, ?_, rfl, rfl, ?_⟩
    · show PruebaRachasEncDeb.zPrueba nf datos = _
      rw [hzz, abs_div, abs_of_pos hσB]
    · show decide (nf.ppf (1 - alpha / 2) < |PruebaRachasEncDeb.zPrueba nf datos|) =
          true ↔ nf.ppf (1 - alpha / 2) < PruebaRachasEncDeb.zPrueba nf datos
      rw [abs_of_nonneg (PruebaRachasEncDeb.zPrueba_nonneg nf datos)]
      simp

/-- Witness for the amended C1 at [0.1, 0.9, 0.9, 0.2] (n1 = 2, n2 = 2,
variance 2/3) with alpha = 0.05 and the concrete library functions
nfEjemplo. -/
theorem c1_formulas_resultado_witness :
    (1 ≤ RachasEncimaDebajo.n1 [1/10, 9/10, 9/10, 1/5] ∧
      1 ≤ RachasEncimaDebajo.n2 [1/10, 9/10, 9/10, 1/5] ∧
      nfEjemplo.sqrt (RachasEncimaDebajo.sigma_R_squared [1/10, 9/10, 9/10, 1/5]) ≠ 0 ∧
      1 ≤ PruebaRachasEncDeb.n1 [1/10, 9/10, 9/10, 1/5] ∧
      1 ≤ PruebaRachasEncDeb.n2 [1/10, 9/10, 9/10, 1/5] ∧
      0 < nfEjemplo.sqrt (PruebaRachasEncDeb.sigma2_B [1/10, 9/10, 9/10, 1/5])) ∧
    ((∃ r : RachasEncimaDebajo.Resultado,
      RachasEncimaDebajo.ejecutar nfEjemplo [1/10, 9/10, 9/10, 1/5] (1/20) = .ok r ∧
      r.rachas_observadas =
        (PruebaRachasEncDeb.agrupar
          (RachasEncimaDebajo.secuencia [1/10, 9/10, 9/10, 1/5])).length ∧
      r.rachas_esperadas =
        2 * (RachasEncimaDebajo.n1 [1/10, 9/10, 9/10, 1/5] : ℚ) *
            (RachasEncimaDebajo.n2 [1/10, 9/10, 9/10, 1/5] : ℚ) /
          ((RachasEncimaDebajo.n1 [1/10, 9/10, 9/10, 1/5] : ℚ) +
            (RachasEncimaDebajo.n2 [1/10, 9/10, 9/10, 1/5] : ℚ)) + 1 ∧
      r.desviacion_estandar = nfEjemplo.sqrt
        (2 * (RachasEncimaDebajo.n1 [1/10, 9/10, 9/10, 1/5] : ℚ) *
            (RachasEncimaDebajo.n2 [1/10, 9/10, 9/10, 1/5] : ℚ) *
            (2 * (RachasEncimaDebajo.n1 [1/10, 9/10, 9/10, 1/5] : ℚ) *
                (RachasEncimaDebajo.n2 [1/10, 9/10, 9/10, 1/5] : ℚ) -
              (RachasEncimaDebajo.n1 [1/10, 9/10, 9/10, 1/5] : ℚ) -
              (RachasEncimaDebajo.n2 [1/10, 9/10, 9/10, 1/5] : ℚ)) /
          (((RachasEncimaDebajo.n1 [1/10, 9/10, 9/10, 1/5] : ℚ) +
              (RachasEncimaDebajo.n2 [1/10, 9/10, 9/10, 1/5] : ℚ)) ^ 2 *
            ((RachasEncimaDebajo.n1 [1/10, 9/10, 9/10, 1/5] : ℚ) +
              (RachasEncimaDebajo.n2 [1/10, 9/10, 9/10, 1/5] : ℚ) - 1))) ∧
      r.estadistico =
        |(r.rachas_observadas : ℚ) - r.rachas_esperadas| / r.desviacion_estandar ∧
      r.valor_critico = nfEjemplo.ppf (1 - (1/20 : ℚ) / 2) ∧
      r.p_valor = 2 * (1 - nfEjemplo.cdf |r.estadistico|) ∧
      (r.rechaza_h0 = true ↔ r.valor_critico < r.estadistico)) ∧
    (∃ r : PruebaRachasEncDeb.Resultado,
      PruebaRachasEncDeb.correr nfEjemplo [1/10, 9/10, 9/10, 1/5] (1/20) = .ok r ∧
      r.B = (PruebaRachasEncDeb.agrupar
        (PruebaRachasEncDeb.simbolos [1/10, 9/10, 9/10, 1/5])).length ∧
      r.mu_B =
        2 * (PruebaRachasEncDeb.n1 [1/10, 9/10, 9/10, 1/5] : ℚ) *
            (PruebaRachasEncDeb.n2 [1/10, 9/10, 9/10, 1/5] : ℚ) /
          ((PruebaRachasEncDeb.n1 [1/10, 9/10, 9/10, 1/5] : ℚ) +
            (PruebaRachasEncDeb.n2 [1/10, 9/10, 9/10, 1/5] : ℚ)) + 1 ∧
      r.sigma_B = nfEjemplo.sqrt
        (2 * (PruebaRachasEncDeb.n1 [1/10, 9/10, 9/10, 1/5] : ℚ) *
            (PruebaRachasEncDeb.n2 [1/10, 9/10, 9/10, 1/5] : ℚ) *
            (2 * (PruebaRachasEncDeb.n1 [1/10, 9/10, 9/10, 1/5] : ℚ) *
                (PruebaRachasEncDeb.n2 [1/10, 9/10, 9/10, 1/5] : ℚ) -
              (PruebaRachasEncDeb.n1 [1/10, 9/10, 9/10, 1/5] : ℚ) -
              (PruebaRachasEncDeb.n2 [1/10, 9/10, 9/10, 1/5] : ℚ)) /
          (((PruebaRachasEncDeb.n1 [1/10, 9/10, 9/10, 1/5] : ℚ) +
              (PruebaRachasEncDeb.n2 [1/10, 9/10, 9/10, 1/5] : ℚ)) ^ 2 *
            ((PruebaRachasEncDeb.n1 [1/10, 9/10, 9/10, 1/5] : ℚ) +
              (PruebaRachasEncDeb.n2 [1/10, 9/10, 9/10, 1/5] : ℚ) - 1))) ∧
      r.estadistico = |(r.B : ℚ) - r.mu_B| / r.sigma_B ∧
      r.valor_critico = nfEjemplo.ppf (1 - (1/20 : ℚ) / 2) ∧
      r.p_valor = 2 * (1 - nfEjemplo.cdf |r.estadistico|) ∧
      (r.rechaza_h0 = true ↔ r.valor_critico < r.estadistico))) :=
  ⟨⟨by norm_num [RachasEncimaDebajo.n1, RachasEncimaDebajo.secuencia,
      RachasEncimaDebajo.umbral, List.count_cons, List.count_nil, menos_ne_mas,
      mas_ne_menos],
    by norm_num [RachasEncimaDebajo.n2, RachasEncimaDebajo.secuencia,
      RachasEncimaDebajo.umbral, List.count_cons, List.count_nil, menos_ne_mas,
      mas_ne_menos],
    by norm_num [RachasEncimaDebajo.sigma_R_squared, RachasEncimaDebajo.numerador,
      RachasEncimaDebajo.denominador, RachasEncimaDebajo.n1, RachasEncimaDebajo.n2,
      RachasEncimaDebajo.secuencia, RachasEncimaDebajo.umbral, nfEjemplo,
      List.count_cons, List.count_nil, menos_ne_mas, mas_ne_menos],
    by norm_num [PruebaRachasEncDeb.n1, PruebaRachasEncDeb.simbolos,
      List.count_cons, List.count_nil, menos_ne_mas, mas_ne_menos],
    by norm_num [PruebaRachasEncDeb.n2, PruebaRachasEncDeb.simbolos,
      List.count_cons, List.count_nil, menos_ne_mas, mas_ne_menos],
    by norm_num [PruebaRachasEncDeb.sigma2_B, PruebaRachasEncDeb.n1,
      PruebaRachasEncDeb.n2, PruebaRachasEncDeb.simbolos, nfEjemplo,
      List.count_cons, List.count_nil, menos_ne_mas, mas_ne_menos]⟩,
   c1_formulas_resultado nfEjemplo [1/10, 9/10, 9/10, 1/5] (1/20)
    (by norm_num [RachasEncimaDebajo.n1, RachasEncimaDebajo.secuencia,
      RachasEncimaDebajo.umbral, List.count_cons, List.count_nil, menos_ne_mas,
      mas_ne_menos])
    (by norm_num [RachasEncimaDebajo.n2, RachasEncimaDebajo.secuencia,
      RachasEncimaDebajo.umbral, List.count_cons, List.count_nil, menos_ne_mas,
      mas_ne_menos])
    (by norm_num [RachasEncimaDebajo.sigma_R_squared, RachasEncimaDebajo.numerador,
      RachasEncimaDebajo.denominador, RachasEncimaDebajo.n1, RachasEncimaDebajo.n2,
      RachasEncimaDebajo.secuencia, RachasEncimaDebajo.umbral, nfEjemplo,
      List.count_cons, List.count_nil, menos_ne_mas, mas_ne_menos])
    (by norm_num [PruebaRachasEncDeb.n1, PruebaRachasEncDeb.simbolos,
      List.count_cons, List.count_nil, menos_ne_mas, mas_ne_menos])
    (by norm_num [PruebaRachasEncDeb.n2, PruebaRachasEncDeb.simbolos,
      List.count_cons, List.count_nil, menos_ne_mas, mas_ne_menos])
    (by norm_num [PruebaRachasEncDeb.sigma2_B, PruebaRachasEncDeb.n1,
      PruebaRachasEncDeb.n2, PruebaRachasEncDeb.simbolos, nfEjemplo,
      List.count_cons, List.count_nil, menos_ne_mas, mas_ne_menos])⟩

lemma secuencia_eq_simbolos (datos : List ℚ) (hm : ∀ x ∈ datos, x ≠ (1 : ℚ)/2) :
    RachasEncimaDebajo.secuencia datos = PruebaRachasEncDeb.simbolos datos := by
  induction datos with
  | nil => rfl
  | cons x xs ih =>
      have hx : x ≠ (1 : ℚ)/2 := hm x (by simp)
      have hxs : ∀ y ∈ xs, y ≠ (1 : ℚ)/2 := fun y hy => hm y (by simp [hy])
      rw [secuencia_cons, simbolos_cons, ih hxs]
      simp only [RachasEncimaDebajo.umbral]
      by_cases h : (1 : ℚ)/2 < x
      · rw [if_pos h, if_pos (le_of_lt h)]
      · have hlt : x < (1 : ℚ)/2 := lt_of_le_of_ne (not_lt.mp h) hx
        rw [if_neg h, if_neg (not_le.mpr hlt)]

/-- C3 fails as stated: the input [0.1, 0.9] has length 2, no value equal
to 0.5, and one value on each side of 0.5, yet rachas_encima_debajo
returns an error (so no statistic at all) while prueba_rachas_enc_deb
returns a success result — the two implementations do not return equal
results for this sequence. -/
theorem c3_contraejemplo :
    ((1 : ℚ)/10 ≠ 1/2 ∧ (9 : ℚ)/10 ≠ 1/2 ∧
      2 ≤ ([(1 : ℚ)/10, 9/10] : List ℚ).length ∧
      RachasEncimaDebajo.n1 [1/10, 9/10] = 1 ∧
      RachasEncimaDebajo.n2 [1/10, 9/10] = 1) ∧
    RachasEncimaDebajo.ejecutar nfEjemplo [1/10, 9/10] (1/20) =
      .error "Error en el cálculo del estadístico Z. Desviación estándar igual a cero." ∧
    (∃ r : PruebaRachasEncDeb.Resultado,
      PruebaRachasEncDeb.correr nfEjemplo [1/10, 9/10] (1/20) = .ok r) := by
  refine ⟨⟨by norm_num, by norm_num, by norm_num, ?_, ?_⟩, ?_, ?_⟩
  · norm_num [RachasEncimaDebajo.n1, RachasEncimaDebajo.secuencia,
      RachasEncimaDebajo.umbral, List.count_cons, List.count_nil, menos_ne_mas,
      mas_ne_menos]
  · norm_num [RachasEncimaDebajo.n2, RachasEncimaDebajo.secuencia,
      RachasEncimaDebajo.umbral, List.count_cons, List.count_nil, menos_ne_mas,
      mas_ne_menos]
  · norm_num [RachasEncimaDebajo.ejecutar, RachasEncimaDebajo.n1,
      RachasEncimaDebajo.n2, RachasEncimaDebajo.secuencia, RachasEncimaDebajo.umbral,
      RachasEncimaDebajo.sigma_R_squared, RachasEncimaDebajo.numerador,
      RachasEncimaDebajo.denominador, nfEjemplo,
      List.count_cons, List.count_nil, menos_ne_mas, mas_ne_menos]
  · rw [PruebaRachasEncDeb.correr_eq_ok nfEjemplo [1/10, 9/10] (1/20) (by norm_num)]
    exact ⟨_, rfl⟩

/-- C3 (amended): for every sequence with no value equal to 0.5, at least
one value on each side of 0.5, and a non-degenerate variance (the square
root of sigma2_B positive, with the real square root excluding exactly
n1 = n2 = 1, where rachas_encima_debajo returns an error while
prueba_rachas_enc_deb returns a result), both implementations return equal
statistic, criticalValue, pValue and rejectNull for the same sequence and
alpha. -/
theorem c3_equivalencia (nf : NormalFuncs) (datos : List ℚ) (alpha : ℚ)
    (hm : ∀ x ∈ datos, x ≠ (1 : ℚ)/2)
    (h1 : 1 ≤ RachasEncimaDebajo.n1 datos) (h2 : 1 ≤ RachasEncimaDebajo.n2 datos)
    (hσ : 0 < nf.sqrt (RachasEncimaDebajo.sigma_R_squared datos)) :
    ∃ (rA : RachasEncimaDebajo.Resultado) (rB : PruebaRachasEncDeb.Resultado),
      RachasEncimaDebajo.ejecutar nf datos alpha = .ok rA ∧
      PruebaRachasEncDeb.correr nf datos alpha = .ok rB ∧
      rA.estadistico = rB.estadistico ∧
      rA.valor_critico = rB.valor_critico ∧
      rA.p_valor = rB.p_valor ∧
      rA.rechaza_h0 = rB.rechaza_h0 := by
  have hseq := secuencia_eq_simbolos datos hm
  have hn1 : PruebaRachasEncDeb.n1 datos = RachasEncimaDebajo.n1 datos := by
    rw [PruebaRachasEncDeb.n1, RachasEncimaDebajo.n1, hseq]
  have hn2 : PruebaRachasEncDeb.n2 datos = RachasEncimaDebajo.n2 datos := by
    rw [PruebaRachasEncDeb.n2, RachasEncimaDebajo.n2, hseq]
  have hσ2 : PruebaRachasEncDeb.sigma2_B datos =
      RachasEncimaDebajo.sigma_R_squared datos := by
    rw [PruebaRachasEncDeb.sigma2_B, RachasEncimaDebajo.sigma_R_squared,
      RachasEncimaDebajo.numerador, RachasEncimaDebajo.denominador, hn1, hn2]
  have hmu : PruebaRachasEncDeb.mu_B datos = RachasEncimaDebajo.mu_R datos := by
    rw [PruebaRachasEncDeb.mu_B, RachasEncimaDebajo.mu_R, hn1, hn2]
  have hB : PruebaRachasEncDeb.Bnum datos =
      RachasEncimaDebajo.contar_rachas (RachasEncimaDebajo.secuencia datos) := by
    rw [PruebaRachasEncDeb.Bnum, ← hseq, PruebaRachasEncDeb.contar_rachas_eq_agrupar]
  have hσB : 0 < nf.sqrt (PruebaRachasEncDeb.sigma2_B datos) := by
    rw [hσ2]; exact hσ
  have hlenB : 2 ≤ datos.length := by
    have := RachasEncimaDebajo.n1_add_n2_strict datos
    omega
  have hstat : |(RachasEncimaDebajo.contar_rachas (RachasEncimaDebajo.secuencia datos) : ℚ) -
        RachasEncimaDebajo.mu_R datos| / nf.sqrt (RachasEncimaDebajo.sigma_R_squared datos) =
      PruebaRachasEncDeb.zPrueba nf datos := by
    rw [PruebaRachasEncDeb.zPrueba, if_pos hσB.ne', hσ2, hB, hmu, abs_div,
      abs_of_pos hσ]
  have habs : |(|(RachasEncimaDebajo.contar_rachas (RachasEncimaDebajo.secuencia datos) : ℚ) -
        RachasEncimaDebajo.mu_R datos| / nf.sqrt (RachasEncimaDebajo.sigma_R_squared datos))| =
      |(RachasEncimaDebajo.contar_rachas (RachasEncimaDebajo.secuencia datos) : ℚ) -
        RachasEncimaDebajo.mu_R datos| / nf.sqrt (RachasEncimaDebajo.sigma_R_squared datos) :=
    abs_of_nonneg (div_nonneg (abs_nonneg _) hσ.le)
  rw [RachasEncimaDebajo.ejecutar_eq_ok nf datos alpha h1 h2 hσ.ne',
    PruebaRachasEncDeb.correr_eq_ok nf datos alpha hlenB]
  refine ⟨_, _, rfl, rfl, hstat, rfl, ?_, ?_⟩
  · rw [habs, hstat, abs_of_nonneg (PruebaRachasEncDeb.zPrueba_nonneg nf datos)]
  · rw [hstat, abs_of_nonneg (PruebaRachasEncDeb.zPrueba_nonneg nf datos)]

/-- Witness for the amended C3 at [0.1, 0.9, 0.9, 0.2] with alpha = 0.05
and the concrete library functions nfEjemplo. -/
theorem c3_equivalencia_witness :
    ((∀ x ∈ ([(1 : ℚ)/10, 9/10, 9/10, 1/5] : List ℚ), x ≠ (1 : ℚ)/2) ∧
      1 ≤ RachasEncimaDebajo.n1 [1/10, 9/10, 9/10, 1/5] ∧
      1 ≤ RachasEncimaDebajo.n2 [1/10, 9/10, 9/10, 1/5] ∧
      0 < nfEjemplo.sqrt (RachasEncimaDebajo.sigma_R_squared [1/10, 9/10, 9/10, 1/5])) ∧
    (∃ (rA : RachasEncimaDebajo.Resultado) (rB : PruebaRachasEncDeb.Resultado),
      RachasEncimaDebajo.ejecutar nfEjemplo [1/10, 9/10, 9/10, 1/5] (1/20) = .ok rA ∧
      PruebaRachasEncDeb.correr nfEjemplo [1/10, 9/10, 9/10, 1/5] (1/20) = .ok rB ∧
      rA.estadistico = rB.estadistico ∧
      rA.valor_critico = rB.valor_critico ∧
      rA.p_valor = rB.p_valor ∧
      rA.rechaza_h0 = rB.rechaza_h0) :=
  ⟨⟨by norm_num,
    by norm_num [RachasEncimaDebajo.n1, RachasEncimaDebajo.secuencia,
      RachasEncimaDebajo.umbral, List.count_cons, List.count_nil, menos_ne_mas,
      mas_ne_menos],
    by norm_num [RachasEncimaDebajo.n2, RachasEncimaDebajo.secuencia,
      RachasEncimaDebajo.umbral, List.count_cons, List.count_nil, menos_ne_mas,
      mas_ne_menos],
    by norm_num [RachasEncimaDebajo.sigma_R_squared, RachasEncimaDebajo.numerador,
      RachasEncimaDebajo.denominador, RachasEncimaDebajo.n1, RachasEncimaDebajo.n2,
      RachasEncimaDebajo.secuencia, RachasEncimaDebajo.umbral, nfEjemplo,
      List.count_cons, List.count_nil, menos_ne_mas, mas_ne_menos]⟩,
   c3_equivalencia nfEjemplo [1/10, 9/10, 9/10, 1/5] (1/20)
    (by norm_num)
    (by norm_num [RachasEncimaDebajo.n1, RachasEncimaDebajo.secuencia,
      RachasEncimaDebajo.umbral, List.count_cons, List.count_nil, menos_ne_mas,
      mas_ne_menos])
    (by norm_num [RachasEncimaDebajo.n2, RachasEncimaDebajo.secuencia,
      RachasEncimaDebajo.umbral, List.count_cons, List.count_nil, menos_ne_mas,
      mas_ne_menos])
    (by norm_num [RachasEncimaDebajo.sigma_R_squared, RachasEncimaDebajo.numerador,
      RachasEncimaDebajo.denominador, RachasEncimaDebajo.n1, RachasEncimaDebajo.n2,
      RachasEncimaDebajo.secuencia, RachasEncimaDebajo.umbral, nfEjemplo,
      List.count_cons, List.count_nil, menos_ne_mas, mas_ne_menos])⟩

/-- C5: on the alternating sequence [0.1, 0.9, 0.1, 0.9, ...] of length 100
with alpha = 0.05, both implementations compute n1 = 50, n2 = 50 and the
maximum possible 100 runs, and reject the null hypothesis, given the true
numeric bounds on the library functions: sqrt(2450/99) is positive and at
most 5 (the true value is ≈ 4.975) and the 0.975 normal quantile is at
most 2 (the true value is ≈ 1.96). -/
theorem c5_secuencia_alternante (nf : NormalFuncs)
    (hpos : 0 < nf.sqrt ((2450 : ℚ)/99))
    (hcota : nf.sqrt ((2450 : ℚ)/99) ≤ 5)
    (hppf : nf.ppf (1 - (1/20 : ℚ)/2) ≤ 2) :
    (∃ rA : RachasEncimaDebajo.Resultado,
      RachasEncimaDebajo.ejecutar nf datosAlternantes (1/20) = .ok rA ∧
      rA.n1 = 50 ∧ rA.n2 = 50 ∧ rA.rachas_observadas = 100 ∧
      rA.rechaza_h0 = true) ∧
    (∃ rB : PruebaRachasEncDeb.Resultado,
      PruebaRachasEncDeb.correr nf datosAlternantes (1/20) = .ok rB ∧
      rB.n1 = 50 ∧ rB.n2 = 50 ∧ rB.B = 100 ∧ rB.rechaza_h0 = true) := by
  have hσA : nf.sqrt (RachasEncimaDebajo.sigma_R_squared datosAlternantes) ≠ 0 := by
    rw [sig_alt]; exact hpos.ne'
  have hz : (49 : ℚ)/5 ≤ 49 / nf.sqrt ((2450 : ℚ)/99) := by
    rw [div_le_div_iff (by norm_num) hpos]
    nlinarith [hpos, hcota]
  have hgt : nf.ppf (1 - (1/20 : ℚ)/2) < 49 / nf.sqrt ((2450 : ℚ)/99) := by
    have h1 : (2 : ℚ) < 49/5 := by norm_num
    linarith
  constructor
  · rw [RachasEncimaDebajo.ejecutar_eq_ok nf datosAlternantes (1/20)
      (by rw [n1_alt]; norm_num) (by rw [n2_alt]; norm_num) hσA]
    refine ⟨_, rfl, n1_alt, n2_alt, rachas_alt, ?_⟩
    rw [rachas_alt, mu_alt, sig_alt]
    have h49 : |((100 : ℕ) : ℚ) - 51| = 49 := by norm_num
    rw [h49]
    exact decide_eq_true hgt
  · have hσB : nf.sqrt (PruebaRachasEncDeb.sigma2_B datosAlternantes) ≠ 0 := by
      rw [sigB_alt]; exact hpos.ne'
    have hzB : PruebaRachasEncDeb.zPrueba nf datosAlternantes =
        49 / nf.sqrt ((2450 : ℚ)/99) := by
      rw [PruebaRachasEncDeb.zPrueba, if_pos hσB, bnum_alt, muB_alt, sigB_alt,
        abs_div, abs_of_pos hpos]
      norm_num
    rw [PruebaRachasEncDeb.correr_eq_ok nf datosAlternantes (1/20)
      (by rw [datosAlternantes, alternar_length]; norm_num)]
    refine ⟨_, rfl, n1B_alt, n2B_alt, bnum_alt, ?_⟩
    rw [hzB, abs_of_pos (div_pos (by norm_num) hpos)]
    exact decide_eq_true hgt

/-- Witness for C5 with the concrete library functions nfCinco, whose
square root is the constant 5 and whose quantile is the constant 2. -/
theorem c5_secuencia_alternante_witness :
    (0 < nfCinco.sqrt ((2450 : ℚ)/99) ∧ nfCinco.sqrt ((2450 : ℚ)/99) ≤ 5 ∧
      nfCinco.ppf (1 - (1/20 : ℚ)/2) ≤ 2) ∧
    ((∃ rA : RachasEncimaDebajo.Resultado,
      RachasEncimaDebajo.ejecutar nfCinco datosAlternantes (1/20) = .ok rA ∧
      rA.n1 = 50 ∧ rA.n2 = 50 ∧ rA.rachas_observadas = 100 ∧
      rA.rechaza_h0 = true) ∧
    (∃ rB : PruebaRachasEncDeb.Resultado,
      PruebaRachasEncDeb.correr nfCinco datosAlternantes (1/20) = .ok rB ∧
      rB.n1 = 50 ∧ rB.n2 = 50 ∧ rB.B = 100 ∧ rB.rechaza_h0 = true)) :=
  ⟨⟨by norm_num [nfCinco], by norm_num [nfCinco], by norm_num [nfCinco]⟩,
   c5_secuencia_alternante nfCinco (by norm_num [nfCinco]) (by norm_num [nfCinco])
    (by norm_num [nfCinco])⟩

/-- C7 fails as stated: with alpha = 2, far outside (0,1), neither
implementation fails — both return a full result record (with a
meaningless critical value and p-value), because neither constructor
validates alpha at all. -/
theorem c7_contraejemplo :
    RachasEncimaDebajo.ejecutar nfEjemplo [1/10, 9/10, 1/5] 2 = .ok
      { estadistico := 3, valor_critico := 2, p_valor := 1, rechaza_h0 := true,
        alpha := 2, n_total := 3, umbral := 1/2, n1 := 1, n2 := 2,
        rachas_observadas := 3, rachas_esperadas := 7/3,
        desviacion_estandar := 2/9 } ∧
    PruebaRachasEncDeb.correr nfEjemplo [1/10, 9/10, 1/5] 2 = .ok
      { estadistico := 3, valor_critico := 2, p_valor := 1, rechaza_h0 := true,
        alpha := 2, B := 3, mu_B := 7/3, sigma_B := 2/9, n1 := 1, n2 := 2,
        total_datos := 3 } := by
  constructor
  · norm_num [RachasEncimaDebajo.ejecutar, RachasEncimaDebajo.n1,
      RachasEncimaDebajo.n2, RachasEncimaDebajo.secuencia, RachasEncimaDebajo.umbral,
      RachasEncimaDebajo.sigma_R_squared, RachasEncimaDebajo.numerador,
      RachasEncimaDebajo.denominador, RachasEncimaDebajo.mu_R,
      RachasEncimaDebajo.contar_rachas, RachasEncimaDebajo.cambios, nfEjemplo,
      List.count_cons, List.count_nil, menos_ne_mas, mas_ne_menos, abs_sub_comm]
    rw [abs_of_pos (show (0 : ℚ) < 2/3 by norm_num)]
    norm_num
  · rw [PruebaRachasEncDeb.correr_eq_ok nfEjemplo [1/10, 9/10, 1/5] 2 (by norm_num)]
    norm_num [PruebaRachasEncDeb.zPrueba, PruebaRachasEncDeb.sigma2_B,
      PruebaRachasEncDeb.mu_B, PruebaRachasEncDeb.Bnum, PruebaRachasEncDeb.n1,
      PruebaRachasEncDeb.n2, PruebaRachasEncDeb.simbolos, nfEjemplo,
      PruebaRachasEncDeb.agrupar, PruebaRachasEncDeb.agruparDesde,
      List.count_cons, List.count_nil, menos_ne_mas, mas_ne_menos, abs_sub_comm]

/-- C7 (amended): neither constructor validates alpha: for every alpha
whatsoever — inside or outside (0,1) — both implementations proceed and,
on the non-degenerate input [0.1, 0.9, 0.2], return a result record
carrying that alpha instead of failing fast with a configuration error. -/
theorem c7_sin_validacion_alpha (nf : NormalFuncs) (alpha : ℚ)
    (hσ : nf.sqrt (RachasEncimaDebajo.sigma_R_squared [1/10, 9/10, 1/5]) ≠ 0) :
    (∃ rA : RachasEncimaDebajo.Resultado,
      RachasEncimaDebajo.ejecutar nf [1/10, 9/10, 1/5] alpha = .ok rA ∧
      rA.alpha = alpha) ∧
    (∃ rB : PruebaRachasEncDeb.Resultado,
      PruebaRachasEncDeb.correr nf [1/10, 9/10, 1/5] alpha = .ok rB ∧
      rB.alpha = alpha) := by
  constructor
  · rw [RachasEncimaDebajo.ejecutar_eq_ok nf [1/10, 9/10, 1/5] alpha
      (by norm_num [RachasEncimaDebajo.n1, RachasEncimaDebajo.secuencia,
        RachasEncimaDebajo.umbral, List.count_cons, List.count_nil, menos_ne_mas,
        mas_ne_menos])
      (by norm_num [RachasEncimaDebajo.n2, RachasEncimaDebajo.secuencia,
        RachasEncimaDebajo.umbral, List.count_cons, List.count_nil, menos_ne_mas,
        mas_ne_menos]) hσ]
    exact ⟨_, rfl, rfl⟩
  · rw [PruebaRachasEncDeb.correr_eq_ok nf [1/10, 9/10, 1/5] alpha (by norm_num)]
    exact ⟨_, rfl, rfl⟩

/-- Witness for the amended C7 at alpha = 2 (outside (0,1)) with the
concrete library functions nfEjemplo. -/
theorem c7_sin_validacion_alpha_witness :
    nfEjemplo.sqrt (RachasEncimaDebajo.sigma_R_squared [1/10, 9/10, 1/5]) ≠ 0 ∧
    ((∃ rA : RachasEncimaDebajo.Resultado,
      RachasEncimaDebajo.ejecutar nfEjemplo [1/10, 9/10, 1/5] 2 = .ok rA ∧
      rA.alpha = 2) ∧
    (∃ rB : PruebaRachasEncDeb.Resultado,
      PruebaRachasEncDeb.correr nfEjemplo [1/10, 9/10, 1/5] 2 = .ok rB ∧
      rB.alpha = 2)) :=
  ⟨by norm_num [RachasEncimaDebajo.sigma_R_squared, RachasEncimaDebajo.numerador,
      RachasEncimaDebajo.denominador, RachasEncimaDebajo.n1, RachasEncimaDebajo.n2,
      RachasEncimaDebajo.secuencia, RachasEncimaDebajo.umbral, nfEjemplo,
      List.count_cons, List.count_nil, menos_ne_mas, mas_ne_menos],
   c7_sin_validacion_alpha nfEjemplo 2
    (by norm_num [RachasEncimaDebajo.sigma_R_squared, RachasEncimaDebajo.numerador,
      RachasEncimaDebajo.denominador, RachasEncimaDebajo.n1, RachasEncimaDebajo.n2,
      RachasEncimaDebajo.secuencia, RachasEncimaDebajo.umbral, nfEjemplo,
      List.count_cons, List.count_nil, menos_ne_mas, mas_ne_menos])⟩

/-- C8: each test invocation is a pure function of the sample sequence and
alpha: on the stateful prueba_rachas_enc_deb, the returned dictionary of
ejecutar depends only on the numeros and alpha fields of the instance (so
two invocations on equal sequences and equal alpha give identical
results); ejecutar never mutates numeros or alpha; and re-running ejecutar
on the mutated instance returns the same result again.  (The
rachas_encima_debajo implementation is modelled directly as a pure
function of its data and alpha, making the property definitional there.) -/
theorem c8_invocacion_pura (nf : NormalFuncs) (e e' : PruebaRachasEncDeb.Estado)
    (hn : e.numeros = e'.numeros) (ha : e.alpha = e'.alpha) :
    (PruebaRachasEncDeb.ejecutar nf e).2 = (PruebaRachasEncDeb.ejecutar nf e').2 ∧
    (PruebaRachasEncDeb.ejecutar nf e).1.numeros = e.numeros ∧
    (PruebaRachasEncDeb.ejecutar nf e).1.alpha = e.alpha ∧
    (PruebaRachasEncDeb.ejecutar nf ((PruebaRachasEncDeb.ejecutar nf e).1)).2 =
      (PruebaRachasEncDeb.ejecutar nf e).2 := by
  refine ⟨?_, PruebaRachasEncDeb.ejecutar_numeros nf e,
    PruebaRachasEncDeb.ejecutar_alpha nf e, ?_⟩
  · rw [PruebaRachasEncDeb.ejecutar_snd_pure nf e,
      PruebaRachasEncDeb.ejecutar_snd_pure nf e', hn, ha]
  · rw [PruebaRachasEncDeb.ejecutar_snd_pure nf ((PruebaRachasEncDeb.ejecutar nf e).1),
      PruebaRachasEncDeb.ejecutar_numeros, PruebaRachasEncDeb.ejecutar_alpha,
      PruebaRachasEncDeb.ejecutar_snd_pure nf e]

/-- Witness for C8: a fresh instance on [0.1, 0.9] and a second instance
with the same data and alpha but scrambled intermediate fields produce the
same result dictionary. -/
theorem c8_invocacion_pura_witness :
    ((PruebaRachasEncDeb.init [1/10, 9/10] (1/20)).numeros =
      ({ PruebaRachasEncDeb.init [1/10, 9/10] (1/20) with
          B := 7, z_prueba := 3 } : PruebaRachasEncDeb.Estado).numeros ∧
     (PruebaRachasEncDeb.init [1/10, 9/10] (1/20)).alpha =
      ({ PruebaRachasEncDeb.init [1/10, 9/10] (1/20) with
          B := 7, z_prueba := 3 } : PruebaRachasEncDeb.Estado).alpha) ∧
    ((PruebaRachasEncDeb.ejecutar nfEjemplo
        (PruebaRachasEncDeb.init [1/10, 9/10] (1/20))).2 =
      (PruebaRachasEncDeb.ejecutar nfEjemplo
        ({ PruebaRachasEncDeb.init [1/10, 9/10] (1/20) with
            B := 7, z_prueba := 3 } : PruebaRachasEncDeb.Estado)).2 ∧
     (PruebaRachasEncDeb.ejecutar nfEjemplo
        (PruebaRachasEncDeb.init [1/10, 9/10] (1/20))).1.numeros =
      (PruebaRachasEncDeb.init [1/10, 9/10] (1/20)).numeros ∧
     (PruebaRachasEncDeb.ejecutar nfEjemplo
        (PruebaRachasEncDeb.init [1/10, 9/10] (1/20))).1.alpha =
      (PruebaRachasEncDeb.init [1/10, 9/10] (1/20)).alpha ∧
     (PruebaRachasEncDeb.ejecutar nfEjemplo
        ((PruebaRachasEncDeb.ejecutar nfEjemplo
          (PruebaRachasEncDeb.init [1/10, 9/10] (1/20))).1)).2 =
      (PruebaRachasEncDeb.ejecutar nfEjemplo
        (PruebaRachasEncDeb.init [1/10, 9/10] (1/20))).2) :=
  ⟨⟨rfl, rfl⟩,
   c8_invocacion_pura nfEjemplo (PruebaRachasEncDeb.init [1/10, 9/10] (1/20))
    ({ PruebaRachasEncDeb.init [1/10, 9/10] (1/20) with
        B := 7, z_prueba := 3 } : PruebaRachasEncDeb.Estado) rfl rfl⟩
